import Mathlib

set_option autoImplicit false

/-!
Verification of the wa-gateway webhook delivery subsystem.

This file shallowly embeds the TypeScript source of the gateway's webhook
delivery core: the QR challenge store (`src/utils/qr-store.ts`), the
webhook auth-header resolver and OAuth token cache (`src/utils/webhook-auth.ts`),
the tenant database update helpers (`src/database/db.ts`), the dashboard
webhook-auth update route (`src/controllers/dashboard.ts`) and the event
fan-out dispatcher (the `onMessageReceived` / session handlers in `src/index.ts`).

Modelling conventions:
* JavaScript timestamps (`Date.now()`, `new Date(...).getTime()`) are integers
  in milliseconds; the `webhook_auth_token_expiration` column, written by the
  code itself as an ISO serialization of such a timestamp and read back with
  `new Date(s).getTime()`, is modelled directly as the underlying millisecond
  timestamp (`Option Int`), since the ISO round-trip is the identity on it.
* Nullable string fields are `Option String`; JavaScript truthiness on them is
  `truthyStr` (null/undefined and the empty string are falsy).
* Network effects are oracles passed as explicit arguments: the outcome of the
  OAuth token HTTP request is an `Except Unit TokenJson` argument, and outbound
  webhook delivery success is a `deliver : String → Bool` oracle.  Database
  writes are returned as explicit values instead of performed in place.
* Thrown JavaScript exceptions are `Except.error` values.
-/

/-- JavaScript truthiness of a nullable string value: `null`/`undefined`
(modelled as `none`) and the empty string are falsy. -/
def truthyStr : Option String → Bool
  | none => false
  | some s => !s.isEmpty

/-- JavaScript `a || b` on optional numbers, where `0` is falsy
(as in `data.expires_in || data.expiresIn`). -/
def orTruthyNat : Option Nat → Option Nat → Option Nat
  | some n, b => if n == 0 then b else some n
  | none, b => b

/-- JavaScript `a || d` on an optional number with a constant fallback,
where `0` is falsy (as in `tokenResponse.expires_in || 3600`). -/
def orNatFallback : Option Nat → Nat → Nat
  | some n, d => if n == 0 then d else n
  | none, d => d

/-- JavaScript `a || b` on optional strings, where the empty string is falsy
(as in the message-text extraction chain). -/
def orTruthyStr (a b : Option String) : Option String :=
  if truthyStr a then a else b

/-- Helper for JavaScript `String.prototype.includes`: does the second list
start with the first? -/
def listStartsWith : List Char → List Char → Bool
  | [], _ => true
  | _ :: _, [] => false
  | a :: as, b :: bs => a == b && listStartsWith as bs

/-- Helper for JavaScript `String.prototype.includes`: does the needle occur
as a contiguous sublist of the haystack? -/
def listContainsSub (needle : List Char) : List Char → Bool
  | [] => needle.isEmpty
  | c :: t => listStartsWith needle (c :: t) || listContainsSub needle t

/-- JavaScript `hay.includes(needle)`. -/
def strIncludes (hay needle : String) : Bool :=
  listContainsSub needle.data hay.data

/-- The standard base64 alphabet, as used by Node's
`Buffer.from(s).toString("base64")`. -/
def base64Chars : List Char :=
  ['A','B','C','D','E','F','G','H','I','J','K','L','M',
   'N','O','P','Q','R','S','T','U','V','W','X','Y','Z',
   'a','b','c','d','e','f','g','h','i','j','k','l','m',
   'n','o','p','q','r','s','t','u','v','w','x','y','z',
   '0','1','2','3','4','5','6','7','8','9','+','/']

/-- Look up a 6-bit value in the base64 alphabet. -/
def base64Char (n : Nat) : Char :=
  base64Chars.getD n '='

/-- Encode a byte list (each entry < 256) in base64, three bytes at a time,
with `=` padding exactly as RFC 4648 prescribes. -/
def base64Chunks : List Nat → List Char
  | [] => []
  | [b0] =>
    [base64Char (b0 / 4), base64Char (b0 % 4 * 16), '=', '=']
  | [b0, b1] =>
    [base64Char (b0 / 4), base64Char (b0 % 4 * 16 + b1 / 16),
     base64Char (b1 % 16 * 4), '=']
  | b0 :: b1 :: b2 :: rest =>
    base64Char (b0 / 4) :: base64Char (b0 % 4 * 16 + b1 / 16) ::
      base64Char (b1 % 16 * 4 + b2 / 64) :: base64Char (b2 % 64) ::
        base64Chunks rest

/-- UTF-8 encoding of a single character, as a list of byte values. -/
def charUTF8 (c : Char) : List Nat :=
  let n := c.toNat
  if n < 128 then [n]
  else if n < 2048 then [192 + n / 64, 128 + n % 64]
  else if n < 65536 then [224 + n / 4096, 128 + n / 64 % 64, 128 + n % 64]
  else [240 + n / 262144, 128 + n / 4096 % 64, 128 + n / 64 % 64, 128 + n % 64]

/-- UTF-8 bytes of a string. -/
def utf8Bytes (s : String) : List Nat :=
  (s.data.map charUTF8).flatten

/-- Node's `Buffer.from(s).toString("base64")`: base64 of the UTF-8 bytes. -/
def base64Encode (s : String) : String :=
  String.mk (base64Chunks (utf8Bytes s))

/-! ## QR challenge store (`src/utils/qr-store.ts`)

The `QRStore` class keeps a `Map` from session name to a record
`{ qr, timestamp }` with a fixed TTL of five minutes.  The map is modelled as
an association list with JavaScript `Map` semantics: `set` overwrites the
entry of an existing key in place, `delete` removes it.  The mutation of the
store is modelled by returning the new store. -/

/-- The QR store TTL: `5 * 60 * 1000` milliseconds. -/
def qrTTL : Int := 5 * 60 * 1000

/-- A stored challenge: the QR payload and its creation timestamp
(`Date.now()` at `storeQR` time). -/
structure QREntry where
  qr : String
  timestamp : Int
deriving DecidableEq

/-- JavaScript `Map.prototype.get` on the association-list model. -/
def mapGet : List (String × QREntry) → String → Option QREntry
  | [], _ => none
  | (k, v) :: t, key => if k == key then some v else mapGet t key

/-- JavaScript `Map.prototype.set`: overwrite an existing key in place,
otherwise append. -/
def mapSet : List (String × QREntry) → String → QREntry → List (String × QREntry)
  | [], key, v => [(key, v)]
  | (k, w) :: t, key, v =>
    if k == key then (key, v) :: t else (k, w) :: mapSet t key v

/-- JavaScript `Map.prototype.delete`: remove the entry for the key. -/
def mapDelete : List (String × QREntry) → String → List (String × QREntry)
  | [], _ => []
  | (k, w) :: t, key => if k == key then t else (k, w) :: mapDelete t key

/-- `QRStore.storeQR`: upsert the entry with the current timestamp. -/
def storeQR (m : List (String × QREntry)) (sessionName qr : String) (now : Int) :
    List (String × QREntry) :=
  mapSet m sessionName { qr := qr, timestamp := now }

/-- `QRStore.getQR`: return the stored challenge, deleting it and returning
`null` when `Date.now() - stored.timestamp > TTL` (note the strict
comparison in the source).  Returns the result together with the
possibly-modified store. -/
def getQR (m : List (String × QREntry)) (sessionName : String) (now : Int) :
    Option String × List (String × QREntry) :=
  match mapGet m sessionName with
  | none => (none, m)
  | some stored =>
    if now - stored.timestamp > qrTTL then (none, mapDelete m sessionName)
    else (some stored.qr, m)

/-- `QRStore.removeQR`: idempotent deletion. -/
def removeQR (m : List (String × QREntry)) (sessionName : String) :
    List (String × QREntry) :=
  mapDelete m sessionName

/-- Looking up a key immediately after setting it yields the new value. -/
theorem mapGet_mapSet (m : List (String × QREntry)) (k : String) (v : QREntry) :
    mapGet (mapSet m k v) k = some v := by
  induction m with
  | nil => simp [mapSet, mapGet]
  | cons hd tl ih =>
    obtain ⟨hk, hv⟩ := hd
    by_cases h : hk = k
    · subst h
      simp [mapSet, mapGet]
    · have hbeq : (hk == k) = false := by simp [h]
      simp [mapSet, mapGet, hbeq, ih]

/-! ## Tenant records and database updates (`src/database/db.ts`)

A row of the `users` table.  Nullable columns are `Option`s; the cached
`webhook_auth_token_expiration` column is the millisecond timestamp the code
serializes into it (see the modelling conventions above). -/

/-- The `User` interface of `src/database/db.ts`. -/
structure User where
  id : Nat
  username : String
  password : String
  is_admin : Nat
  session_name : Option String
  callback_url : Option String
  webhook_auth_type : Option String
  webhook_auth_username : Option String
  webhook_auth_password : Option String
  webhook_auth_token_url : Option String
  webhook_auth_token : Option String
  webhook_auth_token_expiration : Option Int
  webhook_oauth_format : Option String
  created_at : String
deriving DecidableEq

/-- The `authConfig` argument of `userDb.updateUserWebhookAuth`.  Each field
distinguishes "not given" (`none`, TypeScript `undefined`: the column is left
untouched) from "given" (`some v`, where `v` may itself be `none`, TypeScript
`null`: the column is overwritten with NULL). -/
structure WebhookAuthPatch where
  webhook_auth_type : Option (Option String) := none
  webhook_auth_username : Option (Option String) := none
  webhook_auth_password : Option (Option String) := none
  webhook_auth_token_url : Option (Option String) := none
  webhook_auth_token : Option (Option String) := none
  webhook_auth_token_expiration : Option (Option Int) := none
  webhook_oauth_format : Option (Option String) := none
deriving DecidableEq

/-- `userDb.updateUserWebhookAuth`: overwrite exactly the columns whose patch
field is defined, leaving every other column of the row unchanged. -/
def updateUserWebhookAuth (u : User) (p : WebhookAuthPatch) : User :=
  { u with
    webhook_auth_type := p.webhook_auth_type.getD u.webhook_auth_type
    webhook_auth_username := p.webhook_auth_username.getD u.webhook_auth_username
    webhook_auth_password := p.webhook_auth_password.getD u.webhook_auth_password
    webhook_auth_token_url := p.webhook_auth_token_url.getD u.webhook_auth_token_url
    webhook_auth_token := p.webhook_auth_token.getD u.webhook_auth_token
    webhook_auth_token_expiration :=
      p.webhook_auth_token_expiration.getD u.webhook_auth_token_expiration
    webhook_oauth_format := p.webhook_oauth_format.getD u.webhook_oauth_format }

/-- `userDb.getUserByUsername`, over the list of rows: the first user whose
`username` column equals the argument. -/
def getUserByUsername : List User → String → Option User
  | [], _ => none
  | u :: t, name => if u.username == name then some u else getUserByUsername t name

/-! ## OAuth token acquisition (`src/utils/webhook-auth.ts`) -/

/-- The `data` sub-object of the third accepted token response shape. -/
structure TokenDataField where
  token : Option String
  expires_in : Option Nat
  expiresIn : Option Nat
deriving DecidableEq

/-- The JSON body returned by the token endpoint, restricted to the fields
`fetchOAuthToken` inspects.  A field that is absent or `null` in the JSON is
`none` (both are falsy and unusable in the source). -/
structure TokenJson where
  access_token : Option String
  token : Option String
  expires_in : Option Nat
  expiresIn : Option Nat
  success : Bool
  data : Option TokenDataField
deriving DecidableEq

/-- The normalized `OAuthTokenResponse` interface. -/
structure OAuthTokenResponse where
  access_token : String
  expires_in : Option Nat
deriving DecidableEq

/-- The response-shape handling of `fetchOAuthToken`: a truthy top-level
`access_token` is used directly; otherwise a truthy top-level `token` is
mapped to `access_token` with `expires_in || expiresIn`; otherwise a
`success`/`data.token` envelope is unwrapped the same way; otherwise the
function throws the "Unexpected token response format" error. -/
def parseTokenResponse (d : TokenJson) : Except Unit OAuthTokenResponse :=
  if truthyStr d.access_token then
    Except.ok { access_token := d.access_token.getD "", expires_in := d.expires_in }
  else if truthyStr d.token then
    Except.ok { access_token := d.token.getD ""
                expires_in := orTruthyNat d.expires_in d.expiresIn }
  else if d.success && truthyStr (d.data.bind TokenDataField.token) then
    Except.ok { access_token := (d.data.bind TokenDataField.token).getD ""
                expires_in := orTruthyNat (d.data.bind TokenDataField.expires_in)
                                (d.data.bind TokenDataField.expiresIn) }
  else
    Except.error ()

/-- `fetchOAuthToken`: the HTTP POST to the token endpoint is an oracle
(`outcome`); a network failure or non-2xx response is `Except.error` (axios
throws, and the function rethrows), a 2xx response carries the JSON body,
which is then normalized by the response-shape handling. -/
def fetchOAuthToken (outcome : Except Unit TokenJson) : Except Unit OAuthTokenResponse :=
  match outcome with
  | Except.error e => Except.error e
  | Except.ok d => parseTokenResponse d

/-- The five-minute renewal safety buffer, `5 * 60 * 1000` milliseconds. -/
def oauthBufferMs : Int := 5 * 60 * 1000

/-- `isTokenExpired`: a missing expiration is expired; otherwise the token
counts as expired when `expiration.getTime() - now.getTime() < bufferTime`. -/
def isTokenExpired (expirationTime : Option Int) (now : Int) : Bool :=
  match expirationTime with
  | none => true
  | some expiration => decide (expiration - now < oauthBufferMs)

/-- `getValidOAuthToken`: returns the token handed to the caller together
with the database write it issued (`none` when no write was performed; the
source calls `userDb.updateUserWebhookAuth(user.id, ...)` in place).  The
token request outcome is the `outcome` oracle; `now` is `Date.now()`. -/
def getValidOAuthToken (user : User) (now : Int) (outcome : Except Unit TokenJson) :
    Option String × Option WebhookAuthPatch :=
  if !(truthyStr user.webhook_auth_username && truthyStr user.webhook_auth_password
      && truthyStr user.webhook_auth_token_url) then
    (none, none)
  else if !truthyStr user.webhook_auth_token
      || isTokenExpired user.webhook_auth_token_expiration now then
    match fetchOAuthToken outcome with
    | Except.ok tokenResponse =>
      let expiresIn := orNatFallback tokenResponse.expires_in 3600
      let expirationTime : Int := now + (expiresIn : Int) * 1000
      (some tokenResponse.access_token,
       some { webhook_auth_token := some (some tokenResponse.access_token)
              webhook_auth_token_expiration := some (some expirationTime) })
    | Except.error _ => (none, none)
  else
    (user.webhook_auth_token, none)

/-- `getWebhookAuthHeaders`: the auth-header resolver.  Returns the header
list together with the database write the OAuth branch issued (if any).
Header insertion order follows the source; the `Content-Type` header is added
by the caller (`sendWebhookWithAuth`), not here. -/
def getWebhookAuthHeaders (user : Option User) (now : Int)
    (outcome : Except Unit TokenJson) :
    List (String × String) × Option WebhookAuthPatch :=
  match user with
  | none => ([], none)
  | some u =>
    if !truthyStr u.webhook_auth_type || u.webhook_auth_type == some "none" then
      ([], none)
    else if u.webhook_auth_type == some "basic" then
      if truthyStr u.webhook_auth_username && truthyStr u.webhook_auth_password then
        ([("Authorization",
           "Basic " ++ base64Encode (u.webhook_auth_username.getD "" ++ ":"
              ++ u.webhook_auth_password.getD ""))], none)
      else ([], none)
    else if u.webhook_auth_type == some "bearer" then
      if truthyStr u.webhook_auth_token then
        ([("Authorization", "Bearer " ++ u.webhook_auth_token.getD "")], none)
      else ([], none)
    else if u.webhook_auth_type == some "oauth" then
      let r := getValidOAuthToken u now outcome
      if truthyStr r.1 then
        ([("Authorization", "Bearer " ++ r.1.getD "")], r.2)
      else ([], r.2)
    else ([], none)

/-! ## Event fan-out dispatcher (`src/index.ts`)

Inbound protocol events, the canonical webhook bodies, and the two delivery
handlers.  Every HTTP POST that the dispatcher attempts is recorded as a
`PostRecord`; the delivery outcome is the `deliver` oracle, and
`sendWebhookWithAuth` swallows delivery failures (its `try`/`catch` only
logs), so the attempt is recorded either way. -/

/-- The `message.key` object of a `MessageReceived` protocol event. -/
structure MessageKey where
  fromMe : Bool
  remoteJid : Option String
  id : String
deriving DecidableEq

/-- The nested text-bearing fields of `message.message` that the body builder
inspects, flattened: each field stands for the corresponding optional-chained
access in the source (`conversation`, `extendedTextMessage.text`,
`imageMessage.caption`, `videoMessage.caption`, `documentMessage.caption`,
`contactMessage.displayName`, `locationMessage.comment`,
`liveLocationMessage.caption`). -/
structure MessageContent where
  conversation : Option String
  extendedText : Option String
  imageCaption : Option String
  videoCaption : Option String
  documentCaption : Option String
  contactDisplayName : Option String
  locationComment : Option String
  liveLocationCaption : Option String
deriving DecidableEq

/-- A `MessageReceived` protocol event. -/
structure MessageReceived where
  sessionId : String
  key : MessageKey
  message : Option MessageContent
deriving DecidableEq

/-- The canonical outbound body: a message event (the `media` object is a
fixed all-null placeholder in the source and is omitted) or a session-status
event.  `sender` models the `from` field (`message.key.remoteJid ?? null`). -/
inductive WebhookBody where
  | message (session : String) (sender : Option String) (messageId : String)
      (text : Option String)
  | sessionStatus (session : String) (status : String)
deriving DecidableEq

/-- One attempted outbound HTTP POST. -/
structure PostRecord where
  url : String
  body : WebhookBody
  headers : List (String × String)
deriving DecidableEq

/-- The `axios.post` call: succeeds or throws according to the `deliver`
oracle for the target URL. -/
def axiosPost (deliver : String → Bool) (r : PostRecord) : Except Unit Unit :=
  if deliver r.url then Except.ok () else Except.error ()

/-- `sendWebhookWithAuth`: build `Content-Type` plus the resolved auth
headers, POST, and catch any delivery error (logging only).  Returns the list
of POSTs attempted — always exactly the one, whatever the outcome. -/
def sendWebhookWithAuth (deliver : String → Bool) (url : String) (body : WebhookBody)
    (user : Option User) (now : Int) (outcome : Except Unit TokenJson) :
    List PostRecord :=
  let headers := ("Content-Type", "application/json")
      :: (getWebhookAuthHeaders user now outcome).1
  let r : PostRecord := { url := url, body := body, headers := headers }
  match axiosPost deliver r with
  | Except.ok _ => [r]
  | Except.error _ => [r]

/-- The guard at the top of the `onMessageReceived` handler:
`message.key.fromMe || message.key.remoteJid?.includes("broadcast")`. -/
def isFilteredMessage (m : MessageReceived) : Bool :=
  m.key.fromMe ||
    (match m.key.remoteJid with
     | none => false
     | some jid => strIncludes jid "broadcast")

/-- The `message` field of the canonical body: the first truthy entry of the
optional-chained `||` chain, else `null`. -/
def extractText (m : Option MessageContent) : Option String :=
  orTruthyStr (m.bind MessageContent.conversation)
    (orTruthyStr (m.bind MessageContent.extendedText)
      (orTruthyStr (m.bind MessageContent.imageCaption)
        (orTruthyStr (m.bind MessageContent.videoCaption)
          (orTruthyStr (m.bind MessageContent.documentCaption)
            (orTruthyStr (m.bind MessageContent.contactDisplayName)
              (orTruthyStr (m.bind MessageContent.locationComment)
                (orTruthyStr (m.bind MessageContent.liveLocationCaption) none)))))))

/-- The canonical message body built by the `onMessageReceived` handler. -/
def buildMessageBody (m : MessageReceived) : WebhookBody :=
  WebhookBody.message m.sessionId m.key.remoteJid m.key.id (extractText m.message)

/-- The `whastapp.onMessageReceived` handler: filter self-sent and
broadcast messages, resolve the tenant by session id, drop the event when no
callback URL is configured, otherwise POST the body to the tenant callback
(with that tenant's auth) and then, if `env.WEBHOOK_BASE_URL` is set, to the
legacy URL with no tenant (hence no auth headers).  Returns the list of
attempted POSTs in order. -/
def onMessageReceived (deliver : String → Bool) (users : List User)
    (legacyUrl : Option String) (m : MessageReceived) (now : Int)
    (outcome : Except Unit TokenJson) : List PostRecord :=
  if isFilteredMessage m then []
  else
    let user := getUserByUsername users m.sessionId
    let callbackUrl := user.bind User.callback_url
    if !truthyStr callbackUrl then []
    else
      let body := buildMessageBody m
      sendWebhookWithAuth deliver (callbackUrl.getD "") body user now outcome ++
        (if truthyStr legacyUrl then
          sendWebhookWithAuth deliver (legacyUrl.getD "") body none now outcome
        else [])

/-- The `sendSessionWebhook` helper: same resolution and destinations as the
message handler, but the body is the session-status object and both
destination URLs get the `/session` suffix. -/
def sendSessionWebhook (deliver : String → Bool) (users : List User)
    (legacyUrl : Option String) (sessionName status : String) (now : Int)
    (outcome : Except Unit TokenJson) : List PostRecord :=
  let user := getUserByUsername users sessionName
  let callbackUrl := user.bind User.callback_url
  if !truthyStr callbackUrl then []
  else
    let body := WebhookBody.sessionStatus sessionName status
    sendWebhookWithAuth deliver (callbackUrl.getD "" ++ "/session") body user now
        outcome ++
      (if truthyStr legacyUrl then
        sendWebhookWithAuth deliver (legacyUrl.getD "" ++ "/session") body none now
          outcome
      else [])

/-! ## Dashboard webhook-auth update (`src/controllers/dashboard.ts`) -/

/-- The request body of `PUT /dashboard/webhook-auth` after zod validation:
`webhook_auth_type` is required (one of the four enum values), the other
fields are `.nullable().optional()` and distinguish absent (`none`) from
explicit `null` (`some none`). -/
structure WebhookAuthPayload where
  webhook_auth_type : String
  webhook_auth_username : Option (Option String) := none
  webhook_auth_password : Option (Option String) := none
  webhook_auth_token_url : Option (Option String) := none
  webhook_auth_token : Option (Option String) := none
  webhook_oauth_format : Option (Option String) := none
deriving DecidableEq

/-- The `updates` object the route handler builds: the auth type is always
written, the cached token and expiration are preset to `null` ("Reset token
when changing auth type or credentials"), and each optional payload field
that is not `undefined` is copied over — including `webhook_auth_token`,
which therefore overrides the preset `null` when supplied. -/
def buildWebhookAuthUpdates (p : WebhookAuthPayload) : WebhookAuthPatch :=
  { webhook_auth_type := some (some p.webhook_auth_type)
    webhook_auth_token :=
      match p.webhook_auth_token with
      | none => some none
      | some v => some v
    webhook_auth_token_expiration := some none
    webhook_auth_username := p.webhook_auth_username
    webhook_auth_password := p.webhook_auth_password
    webhook_auth_token_url := p.webhook_auth_token_url
    webhook_oauth_format := p.webhook_oauth_format }

/-- The `PUT /dashboard/webhook-auth` handler: admins get an HTTP 400
(`Except.error`), regular users get their row updated with the built patch.
Returns the updated row. -/
def putWebhookAuth (u : User) (p : WebhookAuthPayload) : Except Unit User :=
  if u.is_admin == 1 then Except.error ()
  else Except.ok (updateUserWebhookAuth u (buildWebhookAuthUpdates p))

/-! ## Shared helper lemmas and sample values -/

/-- `sendWebhookWithAuth` always attempts exactly one POST, with
`Content-Type` plus the resolved auth headers, whatever the delivery
outcome (the source catches and logs delivery errors). -/
theorem sendWebhookWithAuth_attempts (deliver : String → Bool) (url : String)
    (body : WebhookBody) (user : Option User) (now : Int)
    (outcome : Except Unit TokenJson) :
    sendWebhookWithAuth deliver url body user now outcome =
      [{ url := url, body := body,
         headers := ("Content-Type", "application/json")
           :: (getWebhookAuthHeaders user now outcome).1 }] := by
  unfold sendWebhookWithAuth axiosPost
  cases h : deliver url <;> simp [h]

/-- A regular tenant with a callback URL and no webhook auth configured. -/
def samplePlainUser : User :=
  { id := 1, username := "alice", password := "hash", is_admin := 0,
    session_name := some "alice", callback_url := some "https://x/hook",
    webhook_auth_type := some "none", webhook_auth_username := none,
    webhook_auth_password := none, webhook_auth_token_url := none,
    webhook_auth_token := none, webhook_auth_token_expiration := none,
    webhook_oauth_format := some "oauth2", created_at := "2024-01-01" }

/-- A regular tenant with no callback URL configured. -/
def sampleNoCallbackUser : User :=
  { samplePlainUser with callback_url := none }

/-- An incoming message for session `alice`, not self-sent, not broadcast. -/
def sampleMessage : MessageReceived :=
  { sessionId := "alice",
    key := { fromMe := false, remoteJid := some "5511999999999@s.whatsapp.net",
             id := "MSG1" },
    message := some { conversation := some "hello", extendedText := none,
                      imageCaption := none, videoCaption := none,
                      documentCaption := none, contactDisplayName := none,
                      locationComment := none, liveLocationCaption := none } }

/-- An OAuth tenant with complete credentials and a cached token whose
expiration sits exactly at the five-minute buffer boundary from time 0. -/
def sampleOAuthBoundaryUser : User :=
  { samplePlainUser with
    webhook_auth_type := some "oauth",
    webhook_auth_username := some "cid",
    webhook_auth_password := some "secret",
    webhook_auth_token_url := some "https://auth/token",
    webhook_auth_token := some "cachedtok",
    webhook_auth_token_expiration := some 300000 }

/-- The same OAuth tenant with a comfortably fresh cached token. -/
def sampleOAuthFreshUser : User :=
  { sampleOAuthBoundaryUser with webhook_auth_token_expiration := some 1000000000 }

/-- The same OAuth tenant with no cached token at all. -/
def sampleOAuthNoTokenUser : User :=
  { sampleOAuthBoundaryUser with
    webhook_auth_token := none, webhook_auth_token_expiration := none }

/-- A successful token-endpoint response in the standard OAuth shape. -/
def sampleTokenJson : TokenJson :=
  { access_token := some "newtok", token := none, expires_in := some 600,
    expiresIn := none, success := false, data := none }

/-! ## Claim C5: QR store get-after-store semantics -/

/-- Claim C5, as stated, is false: at an elapsed time exactly equal to the
TTL the source still returns the challenge (`getQR` evicts only when
`now - stored.timestamp > TTL`, strictly), while the claim demands absence
as soon as the elapsed time is at least the TTL. -/
theorem c5_counterexample :
    ¬ (∀ (m : List (String × QREntry)) (name qr : String) (t now : Int),
        qrTTL ≤ now - t →
        (getQR (storeQR m name qr t) name now).1 = none) := by
  intro h
  have h2 := h [] "alice" "QRDATA" 0 300000 (by decide)
  exact absurd h2 (by decide)

/-- Claim C5 (amended): `get` after `store` returns the stored challenge
exactly when the elapsed time is at most the five-minute TTL; once the
elapsed time strictly exceeds the TTL, `get` evicts the entry and returns
absent. -/
theorem c5_getQR_after_storeQR (m : List (String × QREntry)) (name qr : String)
    (t now : Int) :
    getQR (storeQR m name qr t) name now =
      if now - t > qrTTL then (none, mapDelete (storeQR m name qr t) name)
      else (some qr, storeQR m name qr t) := by
  have hget : mapGet (storeQR m name qr t) name = some { qr := qr, timestamp := t } :=
    mapGet_mapSet m name _
  unfold getQR
  rw [hget]

/-! ## Claim C1: events with no resolved callback versus the legacy webhook -/

/-- Claim C1 failing input, evaluated: with the global legacy webhook URL
configured, a message event whose session resolves to a tenant without a
callback URL (or to no tenant at all), and a session-status event in the
same situation, produce zero POSTs — the handlers return before the legacy
delivery is ever attempted, so the legacy webhook does not receive the
event, contrary to the claim (and to the repository README, which states the
global webhook receives all events of all users). -/
theorem c1_dropped_event_never_reaches_legacy :
    onMessageReceived (fun _ => true) [sampleNoCallbackUser]
        (some "https://g/hook") sampleMessage 0 (Except.error ()) = [] ∧
    onMessageReceived (fun _ => true) [] (some "https://g/hook") sampleMessage 0
        (Except.error ()) = [] ∧
    sendSessionWebhook (fun _ => true) [sampleNoCallbackUser]
        (some "https://g/hook") "alice" "connected" 0 (Except.error ()) = [] := by
  refine ⟨?_, ?_, ?_⟩ <;> decide

/-! ## Claim C9: self-sent and broadcast messages are never dispatched -/

/-- Claim C9: a message event that is self-sent (`fromMe`) or whose recipient
JID contains `broadcast` produces zero webhook POSTs — neither to the tenant
callback nor to the legacy global webhook. -/
theorem c9_filtered_message_no_posts (deliver : String → Bool) (users : List User)
    (legacyUrl : Option String) (m : MessageReceived) (now : Int)
    (outcome : Except Unit TokenJson)
    (h : m.key.fromMe = true ∨
      ∃ jid, m.key.remoteJid = some jid ∧ strIncludes jid "broadcast" = true) :
    onMessageReceived deliver users legacyUrl m now outcome = [] := by
  have hf : isFilteredMessage m = true := by
    rcases h with h | ⟨jid, hj, hi⟩
    · simp [isFilteredMessage, h]
    · simp [isFilteredMessage, hj, hi]
  simp [onMessageReceived, hf]

/-- Witness for C9 at concrete inputs: a self-sent message and a broadcast
message each produce zero POSTs. -/
theorem c9_witness :
    onMessageReceived (fun _ => true) [samplePlainUser] (some "https://g/hook")
        { sessionId := "alice",
          key := { fromMe := true, remoteJid := some "123@c.us", id := "M1" },
          message := none } 0 (Except.error ()) = [] ∧
    onMessageReceived (fun _ => true) [samplePlainUser] (some "https://g/hook")
        { sessionId := "alice",
          key := { fromMe := false, remoteJid := some "555@broadcast", id := "M2" },
          message := none } 0 (Except.error ()) = [] := by
  constructor
  · exact c9_filtered_message_no_posts _ _ _ _ _ _ (Or.inl rfl)
  · exact c9_filtered_message_no_posts _ _ _ _ _ _
      (Or.inr ⟨"555@broadcast", rfl, by decide⟩)

/-! ## Claim C8: dual delivery with isolated failures -/

/-- Claim C8: when the resolved tenant has a callback URL and the global
legacy URL is configured, the dispatcher attempts exactly two POSTs of the
same body — first to the tenant callback with `Content-Type` plus that
tenant's resolved auth headers, then to the legacy URL with `Content-Type`
only (never any auth header).  The attempt list is the same for every
delivery oracle `deliver`, so a failure at either destination never
suppresses the attempt at the other. -/
theorem c8_dual_delivery (deliver : String → Bool) (users : List User)
    (legacyUrl : Option String) (m : MessageReceived) (now : Int)
    (outcome : Except Unit TokenJson) (u : User)
    (hu : getUserByUsername users m.sessionId = some u)
    (hcb : truthyStr u.callback_url = true)
    (hleg : truthyStr legacyUrl = true)
    (hfil : isFilteredMessage m = false) :
    onMessageReceived deliver users legacyUrl m now outcome =
      [{ url := u.callback_url.getD "", body := buildMessageBody m,
         headers := ("Content-Type", "application/json")
           :: (getWebhookAuthHeaders (some u) now outcome).1 },
       { url := legacyUrl.getD "", body := buildMessageBody m,
         headers := [("Content-Type", "application/json")] }] := by
  simp [onMessageReceived, hu, hfil, hcb, hleg, sendWebhookWithAuth_attempts,
    getWebhookAuthHeaders]

/-- Witness for C8 at concrete inputs: one POST to the tenant callback and
one unauthenticated POST to the legacy URL, under an all-failing delivery
oracle. -/
theorem c8_witness :
    onMessageReceived (fun _ => false) [samplePlainUser] (some "https://g/hook")
        sampleMessage 0 (Except.error ()) =
      [{ url := "https://x/hook",
         body := WebhookBody.message "alice" (some "5511999999999@s.whatsapp.net")
           "MSG1" (some "hello"),
         headers := [("Content-Type", "application/json")] },
       { url := "https://g/hook",
         body := WebhookBody.message "alice" (some "5511999999999@s.whatsapp.net")
           "MSG1" (some "hello"),
         headers := [("Content-Type", "application/json")] }] := by
  have h := c8_dual_delivery (fun _ => false) [samplePlainUser]
    (some "https://g/hook") sampleMessage 0 (Except.error ()) samplePlainUser
    (by decide) (by decide) (by decide) (by decide)
  exact h.trans (by decide)

/-! ## Claim C7: the static branches of the auth-header resolver -/

/-- Claim C7: the auth-header resolver is total on the static configurations.
An absent tenant, an absent auth type, or type `none` yields the empty header
set; type `basic` yields exactly the single `Basic` header built from
`base64(username ++ ":" ++ password)` when both credentials are present
(non-null and non-empty, per JavaScript truthiness) and the empty set
otherwise; type `bearer` yields exactly the single `Bearer` header when a
static token is present and the empty set otherwise.  No database write is
issued in any of these cases. -/
theorem c7_static_auth_headers (now : Int) (outcome : Except Unit TokenJson)
    (u : User) :
    getWebhookAuthHeaders none now outcome = ([], none) ∧
    (u.webhook_auth_type = none →
      getWebhookAuthHeaders (some u) now outcome = ([], none)) ∧
    (u.webhook_auth_type = some "none" →
      getWebhookAuthHeaders (some u) now outcome = ([], none)) ∧
    (u.webhook_auth_type = some "basic" →
      getWebhookAuthHeaders (some u) now outcome =
        (if truthyStr u.webhook_auth_username && truthyStr u.webhook_auth_password
         then [("Authorization",
                "Basic " ++ base64Encode (u.webhook_auth_username.getD "" ++ ":"
                  ++ u.webhook_auth_password.getD ""))]
         else [], none)) ∧
    (u.webhook_auth_type = some "bearer" →
      getWebhookAuthHeaders (some u) now outcome =
        (if truthyStr u.webhook_auth_token
         then [("Authorization", "Bearer " ++ u.webhook_auth_token.getD "")]
         else [], none)) := by
  refine ⟨by simp [getWebhookAuthHeaders], ?_, ?_, ?_, ?_⟩
  · intro h
    simp [getWebhookAuthHeaders, h, truthyStr]
  · intro h
    simp [getWebhookAuthHeaders, h]
  · intro h
    have hne : (!truthyStr u.webhook_auth_type
        || (u.webhook_auth_type == some "none")) = false := by
      rw [h]; decide
    simp only [getWebhookAuthHeaders, hne, Bool.false_eq_true, if_false, h]
    split <;> simp_all
    split <;> rfl
  · intro h
    have hne : (!truthyStr u.webhook_auth_type
        || (u.webhook_auth_type == some "none")) = false := by
      rw [h]; decide
    simp only [getWebhookAuthHeaders, hne, Bool.false_eq_true, if_false, h]
    split <;> simp_all
    split <;> rfl

/-- Witness for C7 at concrete inputs: the `basic` branch with credentials
`user`/`pass` yields exactly the RFC base64 header, and the `bearer` branch
with a static token yields exactly the `Bearer` header. -/
theorem c7_witness :
    getWebhookAuthHeaders
        (some { samplePlainUser with
                webhook_auth_type := some "basic",
                webhook_auth_username := some "user",
                webhook_auth_password := some "pass" }) 0 (Except.error ()) =
      ([("Authorization", "Basic dXNlcjpwYXNz")], none) ∧
    getWebhookAuthHeaders
        (some { samplePlainUser with
                webhook_auth_type := some "bearer",
                webhook_auth_token := some "stattok" }) 0 (Except.error ()) =
      ([("Authorization", "Bearer stattok")], none) := by
  constructor
  · have h := (c7_static_auth_headers 0 (Except.error ())
      { samplePlainUser with
        webhook_auth_type := some "basic",
        webhook_auth_username := some "user",
        webhook_auth_password := some "pass" }).2.2.2.1 rfl
    exact h.trans (by decide)
  · have h := (c7_static_auth_headers 0 (Except.error ())
      { samplePlainUser with
        webhook_auth_type := some "bearer",
        webhook_auth_token := some "stattok" }).2.2.2.2 rfl
    exact h.trans (by decide)

/-! ## Claim C6: token response parsing priority -/

/-- Claim C6: the token-endpoint JSON is parsed in this priority order:
a usable (truthy) top-level `access_token` is used directly; otherwise a
usable top-level `token` is mapped to `access_token`, carrying
`expires_in || expiresIn`; otherwise a `success`/`data.token` envelope is
unwrapped the same way; if none of the three shapes matches, the fetch fails
with the format error.  In particular, a response carrying only
`token = "abc"` and `expiresIn = 120` is normalized to
`access_token = "abc"` with `expires_in = 120`. -/
theorem c6_parse_priority :
    (∀ d : TokenJson,
      (truthyStr d.access_token = true →
        parseTokenResponse d =
          Except.ok { access_token := d.access_token.getD ""
                      expires_in := d.expires_in }) ∧
      (truthyStr d.access_token = false → truthyStr d.token = true →
        parseTokenResponse d =
          Except.ok { access_token := d.token.getD ""
                      expires_in := orTruthyNat d.expires_in d.expiresIn }) ∧
      (truthyStr d.access_token = false → truthyStr d.token = false →
        (d.success && truthyStr (d.data.bind TokenDataField.token)) = true →
        parseTokenResponse d =
          Except.ok { access_token := (d.data.bind TokenDataField.token).getD ""
                      expires_in :=
                        orTruthyNat (d.data.bind TokenDataField.expires_in)
                          (d.data.bind TokenDataField.expiresIn) }) ∧
      (truthyStr d.access_token = false → truthyStr d.token = false →
        (d.success && truthyStr (d.data.bind TokenDataField.token)) = false →
        parseTokenResponse d = Except.error ())) ∧
    parseTokenResponse
        { access_token := none, token := some "abc", expires_in := none,
          expiresIn := some 120, success := false, data := none } =
      Except.ok { access_token := "abc", expires_in := some 120 } := by
  constructor
  · intro d
    refine ⟨?_, ?_, ?_, ?_⟩ <;> intros <;> simp_all [parseTokenResponse]
  · rfl

/-- Witness for C6 at concrete inputs: each of the three accepted shapes and
one rejected shape, normalized as the claim describes. -/
theorem c6_witness :
    parseTokenResponse
        { access_token := some "tokA", token := none, expires_in := some 50,
          expiresIn := none, success := false, data := none } =
      Except.ok { access_token := "tokA", expires_in := some 50 } ∧
    parseTokenResponse
        { access_token := none, token := some "tokB", expires_in := none,
          expiresIn := some 120, success := false, data := none } =
      Except.ok { access_token := "tokB", expires_in := some 120 } ∧
    parseTokenResponse
        { access_token := none, token := none, expires_in := none,
          expiresIn := none, success := true,
          data := some { token := some "tokC", expires_in := none,
                         expiresIn := some 77 } } =
      Except.ok { access_token := "tokC", expires_in := some 77 } ∧
    parseTokenResponse
        { access_token := none, token := none, expires_in := none,
          expiresIn := none, success := false, data := none } =
      Except.error () := by
  refine ⟨?_, ?_, ?_, ?_⟩
  · exact ((c6_parse_priority.1 _).1 (by decide)).trans (by rfl)
  · exact ((c6_parse_priority.1 _).2.1 (by decide) (by decide)).trans (by rfl)
  · exact ((c6_parse_priority.1 _).2.2.1 (by decide) (by decide) (by decide)).trans
      (by rfl)
  · exact (c6_parse_priority.1 _).2.2.2 (by decide) (by decide) (by decide)

/-! ## Claim C3: OAuth acquisition failures yield empty headers -/

/-- Claim C3: for an `oauth` tenant whose cached token is missing or stale
(so that a token request is actually made), any failure of the acquisition —
network error, non-2xx response, or a response matching none of the accepted
shapes, all of which surface as `fetchOAuthToken` failing — makes the
resolver return the empty header set (and issue no database write); errors
never propagate, and the webhook POST is still attempted, carrying only
`Content-Type`. -/
theorem c3_oauth_failure_empty_headers (u : User) (now : Int)
    (outcome : Except Unit TokenJson)
    (hty : u.webhook_auth_type = some "oauth")
    (hfail : fetchOAuthToken outcome = Except.error ())
    (hstale : truthyStr u.webhook_auth_token = false ∨
      isTokenExpired u.webhook_auth_token_expiration now = true) :
    getWebhookAuthHeaders (some u) now outcome = ([], none) ∧
    (∀ (deliver : String → Bool) (url : String) (body : WebhookBody),
      sendWebhookWithAuth deliver url body (some u) now outcome =
        [{ url := url, body := body,
           headers := [("Content-Type", "application/json")] }]) := by
  have htok : getValidOAuthToken u now outcome = (none, none) := by
    unfold getValidOAuthToken
    split
    · rfl
    · have hcond : (!truthyStr u.webhook_auth_token
          || isTokenExpired u.webhook_auth_token_expiration now) = true := by
        rcases hstale with hs | hs <;> simp [hs]
      rw [if_pos hcond, hfail]
  have hne : (!truthyStr u.webhook_auth_type
      || (u.webhook_auth_type == some "none")) = false := by
    rw [hty]; decide
  have hhd : getWebhookAuthHeaders (some u) now outcome = ([], none) := by
    have e2 : ((some "oauth" : Option String) == some "basic") = false := by decide
    have e3 : ((some "oauth" : Option String) == some "bearer") = false := by decide
    have e4 : ((some "oauth" : Option String) == some "oauth") = true := by decide
    simp only [getWebhookAuthHeaders, hne, Bool.false_eq_true, if_false, hty, htok,
      e2, e3, e4, if_true]
    decide
  refine ⟨hhd, ?_⟩
  intro deliver url body
  rw [sendWebhookWithAuth_attempts, hhd]

/-- Witness for C3 at concrete inputs: a fully configured OAuth tenant with
no cached token and a failing token endpoint gets empty auth headers, and
its webhook POST still goes out with `Content-Type` only. -/
theorem c3_witness :
    getWebhookAuthHeaders (some sampleOAuthNoTokenUser) 0 (Except.error ()) =
      ([], none) ∧
    sendWebhookWithAuth (fun _ => true) "https://x/hook"
        (WebhookBody.sessionStatus "alice" "connected")
        (some sampleOAuthNoTokenUser) 0 (Except.error ()) =
      [{ url := "https://x/hook",
         body := WebhookBody.sessionStatus "alice" "connected",
         headers := [("Content-Type", "application/json")] }] := by
  have h := c3_oauth_failure_empty_headers sampleOAuthNoTokenUser 0
    (Except.error ()) rfl rfl (Or.inl (by decide))
  exact ⟨h.1, h.2 _ _ _⟩

/-! ## Claim C2: OAuth cache freshness and refresh persistence -/

/-- Claim C2, as stated, is false on the freshness boundary: with a cached
token whose expiration minus the five-minute buffer equals `now` exactly
(so it is not "still in the future"), the claim demands a fetch returning
the new token, but the source's `isTokenExpired` uses a strict `<` against
the buffer and therefore still serves the cached token (and issues no
write). -/
theorem c2_counterexample :
    ¬ (∀ (u : User) (now : Int) (outcome : Except Unit TokenJson),
        u.webhook_auth_type = some "oauth" →
        truthyStr u.webhook_auth_username = true →
        truthyStr u.webhook_auth_password = true →
        truthyStr u.webhook_auth_token_url = true →
        ((truthyStr u.webhook_auth_token = true ∧
            ∃ e, u.webhook_auth_token_expiration = some e ∧
              now < e - oauthBufferMs) →
          getValidOAuthToken u now outcome = (u.webhook_auth_token, none)) ∧
        (¬ (truthyStr u.webhook_auth_token = true ∧
            ∃ e, u.webhook_auth_token_expiration = some e ∧
              now < e - oauthBufferMs) →
          ∀ tr, fetchOAuthToken outcome = Except.ok tr →
            getValidOAuthToken u now outcome =
              (some tr.access_token,
               some { webhook_auth_token := some (some tr.access_token)
                      webhook_auth_token_expiration :=
                        some (some (now + (tr.expires_in.getD 3600 : Int) * 1000)) }))) := by
  intro h
  have hmain := h sampleOAuthBoundaryUser 0 (Except.ok sampleTokenJson) rfl
    (by decide) (by decide) (by decide)
  have hnotfresh : ¬ (truthyStr sampleOAuthBoundaryUser.webhook_auth_token = true ∧
      ∃ e, sampleOAuthBoundaryUser.webhook_auth_token_expiration = some e ∧
        (0 : Int) < e - oauthBufferMs) := by
    rintro ⟨-, e, he, hlt⟩
    have he2 : e = 300000 := by
      have hx : (some (300000 : Int) : Option Int) = some e := he
      exact (Option.some.inj hx).symm
    subst he2
    norm_num [oauthBufferMs] at hlt
  have h3 := hmain.2 hnotfresh { access_token := "newtok", expires_in := some 600 }
    (by rfl)
  have h4 : getValidOAuthToken sampleOAuthBoundaryUser 0 (Except.ok sampleTokenJson) =
      (some "cachedtok", none) := by rfl
  rw [h4] at h3
  simp at h3

/-- Claim C2 (amended): for an `oauth` tenant with all three credentials
present, a cached token is served without any fetch or write whenever its
expiration minus `now` is at least the five-minute buffer (the boundary case
counts as fresh); otherwise the token endpoint is consulted, and on success
the new token is returned together with a write of that token and of an
absolute expiration of `now` plus `expires_in` seconds — where `expires_in`
falls back to 3600 both when absent and when equal to `0` (JavaScript `||`
treats `0` as falsy). -/
theorem c2_oauth_cache_and_refresh (u : User) (now : Int)
    (outcome : Except Unit TokenJson)
    (hty : u.webhook_auth_type = some "oauth")
    (hcu : truthyStr u.webhook_auth_username = true)
    (hcp : truthyStr u.webhook_auth_password = true)
    (hct : truthyStr u.webhook_auth_token_url = true) :
    (∀ e, u.webhook_auth_token_expiration = some e →
      truthyStr u.webhook_auth_token = true → oauthBufferMs ≤ e - now →
      getValidOAuthToken u now outcome = (u.webhook_auth_token, none)) ∧
    ((truthyStr u.webhook_auth_token = false ∨
        u.webhook_auth_token_expiration = none ∨
        ∃ e, u.webhook_auth_token_expiration = some e ∧ e - now < oauthBufferMs) →
      ∀ tr, fetchOAuthToken outcome = Except.ok tr →
        getValidOAuthToken u now outcome =
          (some tr.access_token,
           some { webhook_auth_token := some (some tr.access_token)
                  webhook_auth_token_expiration :=
                    some (some (now + (orNatFallback tr.expires_in 3600 : Int) * 1000)) })) := by
  have hcfg : (!(truthyStr u.webhook_auth_username && truthyStr u.webhook_auth_password
      && truthyStr u.webhook_auth_token_url)) = false := by
    simp [hcu, hcp, hct]
  constructor
  · intro e he htok hfresh
    have hexp : isTokenExpired u.webhook_auth_token_expiration now = false := by
      rw [he]
      simp only [isTokenExpired]
      exact decide_eq_false (not_lt.mpr hfresh)
    have hcond : (!truthyStr u.webhook_auth_token
        || isTokenExpired u.webhook_auth_token_expiration now) = false := by
      simp [htok, hexp]
    unfold getValidOAuthToken
    simp only [hcfg, Bool.false_eq_true, if_false, hcond]
  · intro hstale tr htr
    have hcond : (!truthyStr u.webhook_auth_token
        || isTokenExpired u.webhook_auth_token_expiration now) = true := by
      rcases hstale with hs | hs | ⟨e, he, hl⟩
      · simp [hs]
      · simp [isTokenExpired, hs]
      · have hx : isTokenExpired u.webhook_auth_token_expiration now = true := by
          rw [he]
          simp only [isTokenExpired]
          exact decide_eq_true hl
        simp [hx]
    unfold getValidOAuthToken
    simp only [hcfg, Bool.false_eq_true, if_false, hcond, if_true, htr]

/-- Witness for C2 at concrete inputs: a comfortably fresh cached token is
served with no write, and a tenant without a cached token gets the fetched
token persisted with expiration `now + expires_in * 1000`. -/
theorem c2_witness :
    getValidOAuthToken sampleOAuthFreshUser 0 (Except.ok sampleTokenJson) =
      (some "cachedtok", none) ∧
    getValidOAuthToken sampleOAuthNoTokenUser 0 (Except.ok sampleTokenJson) =
      (some "newtok",
       some { webhook_auth_token := some (some "newtok")
              webhook_auth_token_expiration := some (some 600000) }) := by
  constructor
  · have h := (c2_oauth_cache_and_refresh sampleOAuthFreshUser 0
      (Except.ok sampleTokenJson) rfl (by decide) (by decide) (by decide)).1
      1000000000 rfl (by decide) (by decide)
    exact h.trans (by rfl)
  · have h := (c2_oauth_cache_and_refresh sampleOAuthNoTokenUser 0
      (Except.ok sampleTokenJson) rfl (by decide) (by decide) (by decide)).2
      (Or.inl (by decide)) { access_token := "newtok", expires_in := some 600 }
      (by rfl)
    exact h.trans (by decide)

/-! ## Claim C4: webhook-auth updates and the token cache -/

/-- Claim C4, as stated, is false: the dashboard handler presets the cached
token to `null` but then copies any `webhook_auth_token` supplied in the
payload over the preset, so an update that provides a static token (the
normal way to configure `bearer`) leaves the token column equal to the
supplied value, not `null`. -/
theorem c4_counterexample :
    ¬ (∀ (u u2 : User) (p : WebhookAuthPayload),
        ¬ u.is_admin = 1 →
        putWebhookAuth u p = Except.ok u2 →
        u2.webhook_auth_token = none ∧
          u2.webhook_auth_token_expiration = none) := by
  intro h
  have h2 := h sampleOAuthFreshUser
    (updateUserWebhookAuth sampleOAuthFreshUser
      (buildWebhookAuthUpdates
        { webhook_auth_type := "bearer",
          webhook_auth_token := some (some "newstatic") }))
    { webhook_auth_type := "bearer", webhook_auth_token := some (some "newstatic") }
    (by decide) (by rfl)
  exact absurd h2.1 (by decide)

/-- Claim C4 (amended): every webhook-auth configuration update
unconditionally resets the cached token expiration to `null`, and resets the
cached token to `null` unless the same update supplies a replacement static
token, in which case the token column holds exactly the supplied value — in
either case the token column afterwards depends only on the payload, so no
previously cached token value ever survives the update. -/
theorem c4_webhook_auth_update (u : User) (p : WebhookAuthPayload)
    (hadm : ¬ u.is_admin = 1) :
    putWebhookAuth u p =
      Except.ok (updateUserWebhookAuth u (buildWebhookAuthUpdates p)) ∧
    (updateUserWebhookAuth u (buildWebhookAuthUpdates p)).webhook_auth_token_expiration
      = none ∧
    (updateUserWebhookAuth u (buildWebhookAuthUpdates p)).webhook_auth_token =
      (match p.webhook_auth_token with
       | none => none
       | some v => v) ∧
    (updateUserWebhookAuth u (buildWebhookAuthUpdates p)).webhook_auth_type =
      some p.webhook_auth_type := by
  have hbeq : (u.is_admin == 1) = false := by
    simp [beq_eq_false_iff_ne, hadm]
  refine ⟨?_, ?_, ?_, ?_⟩
  · simp only [putWebhookAuth, hbeq, Bool.false_eq_true, if_false]
  · simp [updateUserWebhookAuth, buildWebhookAuthUpdates]
  · cases hp : p.webhook_auth_token <;>
      simp [updateUserWebhookAuth, buildWebhookAuthUpdates, hp]
  · simp [updateUserWebhookAuth, buildWebhookAuthUpdates]

/-- Witness for C4 at a concrete input: switching an `oauth` tenant that
holds a cached token and expiration to `bearer` without supplying a token
clears both cache columns. -/
theorem c4_witness :
    putWebhookAuth sampleOAuthFreshUser { webhook_auth_type := "bearer" } =
      Except.ok (updateUserWebhookAuth sampleOAuthFreshUser
        (buildWebhookAuthUpdates { webhook_auth_type := "bearer" })) ∧
    (updateUserWebhookAuth sampleOAuthFreshUser
        (buildWebhookAuthUpdates
          { webhook_auth_type := "bearer" })).webhook_auth_token = none ∧
    (updateUserWebhookAuth sampleOAuthFreshUser
        (buildWebhookAuthUpdates
          { webhook_auth_type := "bearer" })).webhook_auth_token_expiration =
      none := by
  have h := c4_webhook_auth_update sampleOAuthFreshUser
    { webhook_auth_type := "bearer" } (by decide)
  exact ⟨h.1, h.2.2.1.trans (by rfl), h.2.1⟩

/-! ## Claim C10: the OAuth refresh touches only the two cache columns -/

/-- The write issued by `getValidOAuthToken` is either absent or a patch
defining exactly the cached-token and cached-expiration columns. -/
theorem getValidOAuthToken_write_cases (u : User) (now : Int)
    (outcome : Except Unit TokenJson) :
    (getValidOAuthToken u now outcome).2 = none ∨
    ∃ tok exp, (getValidOAuthToken u now outcome).2 =
      some { webhook_auth_token := some tok
             webhook_auth_token_expiration := some exp } := by
  unfold getValidOAuthToken
  split
  · exact Or.inl rfl
  · split
    · split
      · right
        exact ⟨_, _, rfl⟩
      · exact Or.inl rfl
    · exact Or.inl rfl

/-- Claim C10: OAuth token acquisition mutates at most the two cache
columns.  Any write it issues defines only `webhook_auth_token` and
`webhook_auth_token_expiration`, so applying it leaves every other column of
the tenant row unchanged; and on a cache hit (present token, expiration not
inside the buffer) no write is issued at all. -/
theorem c10_oauth_refresh_frame (u : User) (now : Int)
    (outcome : Except Unit TokenJson) :
    (∀ p, (getValidOAuthToken u now outcome).2 = some p →
      p.webhook_auth_type = none ∧ p.webhook_auth_username = none ∧
      p.webhook_auth_password = none ∧ p.webhook_auth_token_url = none ∧
      p.webhook_oauth_format = none ∧
      (updateUserWebhookAuth u p).id = u.id ∧
      (updateUserWebhookAuth u p).username = u.username ∧
      (updateUserWebhookAuth u p).password = u.password ∧
      (updateUserWebhookAuth u p).is_admin = u.is_admin ∧
      (updateUserWebhookAuth u p).session_name = u.session_name ∧
      (updateUserWebhookAuth u p).callback_url = u.callback_url ∧
      (updateUserWebhookAuth u p).webhook_auth_type = u.webhook_auth_type ∧
      (updateUserWebhookAuth u p).webhook_auth_username = u.webhook_auth_username ∧
      (updateUserWebhookAuth u p).webhook_auth_password = u.webhook_auth_password ∧
      (updateUserWebhookAuth u p).webhook_auth_token_url = u.webhook_auth_token_url ∧
      (updateUserWebhookAuth u p).webhook_oauth_format = u.webhook_oauth_format ∧
      (updateUserWebhookAuth u p).created_at = u.created_at) ∧
    (truthyStr u.webhook_auth_token = true →
      isTokenExpired u.webhook_auth_token_expiration now = false →
      (getValidOAuthToken u now outcome).2 = none) := by
  constructor
  · intro p hp
    rcases getValidOAuthToken_write_cases u now outcome with hc | ⟨tok, exp, hc⟩
    · rw [hp] at hc
      exact absurd hc (by simp)
    · rw [hp] at hc
      have hpe : p = { webhook_auth_token := some tok
                       webhook_auth_token_expiration := some exp } :=
        Option.some.inj hc
      subst hpe
      exact ⟨rfl, rfl, rfl, rfl, rfl, rfl, rfl, rfl, rfl, rfl, rfl, rfl, rfl,
        rfl, rfl, rfl, rfl⟩
  · intro htok hexp
    have hcond : (!truthyStr u.webhook_auth_token
        || isTokenExpired u.webhook_auth_token_expiration now) = false := by
      simp [htok, hexp]
    unfold getValidOAuthToken
    split
    · rfl
    · simp only [hcond, Bool.false_eq_true, if_false]

/-- Witness for C10 at concrete inputs: a cache hit issues no write, and the
write issued by a refresh leaves the `callback_url` column (for one) of the
tenant row untouched. -/
theorem c10_witness :
    (getValidOAuthToken sampleOAuthFreshUser 0 (Except.ok sampleTokenJson)).2 =
      none ∧
    (updateUserWebhookAuth sampleOAuthNoTokenUser
        { webhook_auth_token := some (some "newtok")
          webhook_auth_token_expiration := some (some 600000) }).callback_url =
      sampleOAuthNoTokenUser.callback_url := by
  constructor
  · exact (c10_oauth_refresh_frame sampleOAuthFreshUser 0
      (Except.ok sampleTokenJson)).2 (by decide) (by decide)
  · have h := (c10_oauth_refresh_frame sampleOAuthNoTokenUser 0
      (Except.ok sampleTokenJson)).1
      { webhook_auth_token := some (some "newtok")
        webhook_auth_token_expiration := some (some 600000) } (by decide)
    exact h.2.2.2.2.2.2.2.2.2.2.1
